import Mathlib

/-!
Verification of the baseline comparison and history-tracking subsystem of the
Ai-agent repository (baseline_manager.py, automation_api_baseline_manager.py,
baseline_history_manager.py, automation_api_extractor.py, comparison_engine.py,
and the normalization loop of app.py).

The Python code is shallowly embedded: JSON files become an explicit state
(project name to optional file content), dictionaries become structures with
the fields the code reads, exceptions become Except results, and the remote
GitHub mirror becomes an environment recording the outcome each network call
would have.
-/

namespace AiAgent

/-- Python exception taxonomy used by the embedded code. -/
inductive PyError where
  | runtimeError : String → PyError
  | permissionError : String → PyError
  | fileNotFoundError : String → PyError
  | indexError : String → PyError
  | keyError : String → PyError
  | jsonDecodeError : String → PyError
  | attributeError : String → PyError
  | typeError : String → PyError
  | requestException : String → PyError
  deriving Repr, DecidableEq

/-- Python truthiness of an optional string, as in `if not expected:` applied
to an `os.getenv` result (None and the empty string are falsy). -/
def truthy : Option String → Bool
  | none => false
  | some s => !(s == "")

/-- Content of one persisted JSON storage unit, as `load_baseline` observes it:
the file may be absent (modelled by `Option` around this type), empty,
a JSON array of records, valid JSON that is not a list, or unparseable. -/
inductive StoreFile (α : Type) where
  | emptyFile : StoreFile α
  | jsonList : List α → StoreFile α
  | jsonNonList : StoreFile α
  | corrupt : StoreFile α
  deriving Repr, DecidableEq

/-- A per-project baseline store: project name to optional file content. -/
def Store (α : Type) : Type := String → Option (StoreFile α)

/-- Pointwise update of a store, as writing one project's file. -/
def storeWrite (st : Store α) (project : String) (v : StoreFile α) : Store α :=
  fun p => if p = project then some v else st p

/-- The store with no baseline file for any project. -/
def emptyStore : Store α := fun _ => none

/-- One normalized provar failure record (the dictionaries built by the
normalization loop in app.py and consumed by baseline_manager.py).
Only testcase and error take part in comparison; the rest is metadata. -/
structure FailureRecord where
  testcase : String
  testcase_path : String
  error : String
  details : String
  source : String
  webBrowserType : String
  projectCachePath : String
  deriving Repr, DecidableEq

/-- baseline_manager.baseline_exists: true iff the file exists, even when it
contains an empty list. -/
def baseline_exists (st : Store α) (project : String) : Bool :=
  (st project).isSome

/-- baseline_manager.load_baseline: missing file, empty file, non-list JSON
and JSON decode errors all yield the empty list; a JSON array yields it. -/
def load_baseline (st : Store α) (project : String) : List α :=
  match st project with
  | none => []
  | some StoreFile.emptyFile => []
  | some (StoreFile.jsonList l) => l
  | some StoreFile.jsonNonList => []
  | some StoreFile.corrupt => []

/-- Comparison key of baseline_manager.compare_with_baseline:
the f-string testcase|error. -/
def provarKey (f : FailureRecord) : String :=
  f.testcase ++ "|" ++ f.error

/-- The partition loop of baseline_manager.compare_with_baseline: each current
record is appended to existing_failures when its key is in the baseline key
set, else to new_failures, preserving input order. -/
def provarCompareLoop (keys : List String) :
    List FailureRecord → List FailureRecord × List FailureRecord
  | [] => ([], [])
  | f :: rest =>
    let r := provarCompareLoop keys rest
    if provarKey f ∈ keys then (r.1, f :: r.2) else (f :: r.1, r.2)

/-- baseline_manager.compare_with_baseline: load the baseline, build its key
set, partition the current failures; returns (new_failures, existing_failures). -/
def compare_with_baseline (st : Store FailureRecord) (project : String)
    (current : List FailureRecord) : List FailureRecord × List FailureRecord :=
  provarCompareLoop ((load_baseline st project).map provarKey) current

/-- One AutomationAPI failure record as passed into
automation_api_baseline_manager.save_baseline and compare_with_baseline.
The manager reads project, spec_file, test_name, error_summary, is_skipped
and the internal sentinel flag _no_failures (field no_failures here);
details and timestamp are metadata it never reads. -/
structure ApiRecord where
  project : String
  spec_file : String
  test_name : String
  error_summary : String
  is_skipped : Bool
  details : String
  timestamp : String
  no_failures : Bool
  deriving Repr, DecidableEq

/-- The five-field record written by
automation_api_baseline_manager.save_baseline. -/
structure ApiCleanRecord where
  project : String
  spec_file : String
  test_name : String
  error_summary : String
  is_skipped : Bool
  deriving Repr, DecidableEq

/-- Projection of a raw record to the clean shape saved to disk. -/
def cleanOf (f : ApiRecord) : ApiCleanRecord :=
  { project := f.project, spec_file := f.spec_file, test_name := f.test_name,
    error_summary := f.error_summary, is_skipped := f.is_skipped }

/-- The cleanup loop of automation_api_baseline_manager.save_baseline: drop
records flagged _no_failures, keep only the five persisted fields of the rest. -/
def cleanFailuresLoop : List ApiRecord → List ApiCleanRecord
  | [] => []
  | f :: rest =>
    if f.no_failures then cleanFailuresLoop rest
    else cleanOf f :: cleanFailuresLoop rest

/-- automation_api_baseline_manager.baseline_exists. -/
def api_baseline_exists (st : Store ApiCleanRecord) (project : String) : Bool :=
  (st project).isSome

/-- automation_api_baseline_manager.load_baseline: same safe-load shape as the
provar store. -/
def api_load_baseline (st : Store ApiCleanRecord) (project : String) : List ApiCleanRecord :=
  load_baseline st project

/-- automation_api_baseline_manager.save_baseline: validates the admin key
against BASELINE_ADMIN_KEY (RuntimeError when unset or empty, PermissionError
on mismatch), then overwrites the project's file with the cleaned list. -/
def api_save_baseline (adminEnv : Option String) (project : String)
    (failures : List ApiRecord) (admin_key : String) (st : Store ApiCleanRecord) :
    Except PyError (Store ApiCleanRecord) :=
  match adminEnv with
  | none => Except.error (PyError.runtimeError "BASELINE_ADMIN_KEY not configured")
  | some expected =>
    if expected == "" then
      Except.error (PyError.runtimeError "BASELINE_ADMIN_KEY not configured")
    else if ¬(admin_key = expected) then
      Except.error (PyError.permissionError "Admin key invalid")
    else
      Except.ok (storeWrite st project (StoreFile.jsonList (cleanFailuresLoop failures)))

/-- Signature used on baseline records by
automation_api_baseline_manager.compare_with_baseline:
the f-string spec_file|test_name|error_summary. -/
def apiCleanSig (b : ApiCleanRecord) : String :=
  b.spec_file ++ "|" ++ b.test_name ++ "|" ++ b.error_summary

/-- Signature of a current record in the same comparison. -/
def apiSig (f : ApiRecord) : String :=
  f.spec_file ++ "|" ++ f.test_name ++ "|" ++ f.error_summary

/-- The partition loop of automation_api_baseline_manager.compare_with_baseline:
records flagged _no_failures are skipped entirely; the rest go to
existing_failures when their signature is in the baseline set, else to
new_failures, preserving input order. -/
def apiCompareLoop (sigs : List String) :
    List ApiRecord → List ApiRecord × List ApiRecord
  | [] => ([], [])
  | f :: rest =>
    if f.no_failures then apiCompareLoop sigs rest
    else
      let r := apiCompareLoop sigs rest
      if apiSig f ∈ sigs then (r.1, f :: r.2) else (f :: r.1, r.2)

/-- automation_api_baseline_manager.compare_with_baseline. -/
def api_compare_with_baseline (st : Store ApiCleanRecord) (project : String)
    (current : List ApiRecord) : List ApiRecord × List ApiRecord :=
  apiCompareLoop ((api_load_baseline st project).map apiCleanSig) current

/-- One record produced by automation_api_extractor.extract_api_failures and
consumed by compare_api_reports. Numeric report metadata (execution_time,
total_tests, total_failures) is not read by the comparison and is omitted. -/
structure ApiXRecord where
  name : String
  spec_name : String
  spec_file_path : String
  testcase_name : String
  error : String
  error_type : String
  error_details : String
  is_skipped : Bool
  skip_reason : String
  timestamp : String
  no_failures : Bool
  deriving Repr, DecidableEq

/-- Lookup key of compare_api_reports: the f-string spec_name::testcase_name.
The error text is not part of the key. -/
def apiXKey (f : ApiXRecord) : String :=
  f.spec_name ++ "::" ++ f.testcase_name

/-- Value stored in the Python dict comprehension for a key: the last record
of the list carrying that key (later entries overwrite earlier ones). -/
def lastWithKey (l : List ApiXRecord) (k : String) : Option ApiXRecord :=
  (l.filter (fun f => apiXKey f == k)).getLast?

/-- Key set of a record list, in first-occurrence order (Python dict keys). -/
def xKeys (l : List ApiXRecord) : List String :=
  (l.map apiXKey).dedup

/-- The sentinel guard at the top of compare_api_reports: a list whose first
record carries _no_failures is replaced by the empty list. -/
def dropSentinelList (l : List ApiXRecord) : List ApiXRecord :=
  match l with
  | [] => []
  | f :: _ => if f.no_failures then [] else l

/-- Result dictionary of automation_api_extractor.compare_api_reports. -/
structure ApiCompareResult where
  new_failures : List ApiXRecord
  fixed_failures : List ApiXRecord
  common_failures : List ApiXRecord
  current_total : Nat
  baseline_total : Nat
  new_count : Nat
  fixed_count : Nat
  common_count : Nat
  deriving Repr, DecidableEq

/-- automation_api_extractor.compare_api_reports: after the sentinel guard,
builds key-to-record maps for both lists and classifies keys by set
difference and intersection. Python iterates the three key sets in
unspecified order; this embedding fixes the first-occurrence order, which no
theorem below depends on beyond membership. -/
def compare_api_reports (current0 baseline0 : List ApiXRecord) : ApiCompareResult :=
  let current := dropSentinelList current0
  let baseline := dropSentinelList baseline0
  let currentKeys := xKeys current
  let baselineKeys := xKeys baseline
  let newKeys := currentKeys.filter (fun k => !(decide (k ∈ baselineKeys)))
  let fixedKeys := baselineKeys.filter (fun k => !(decide (k ∈ currentKeys)))
  let commonKeys := currentKeys.filter (fun k => decide (k ∈ baselineKeys))
  { new_failures := newKeys.filterMap (lastWithKey current)
    fixed_failures := fixedKeys.filterMap (lastWithKey baseline)
    common_failures := commonKeys.filterMap (lastWithKey current)
    current_total := current.length
    baseline_total := baseline.length
    new_count := newKeys.length
    fixed_count := fixedKeys.length
    common_count := commonKeys.length }

/-- One record consumed by comparison_engine.compare_reports (it reads only
the testcase and error keys). -/
structure CmpRecord where
  testcase : String
  error : String
  details : String
  deriving Repr, DecidableEq

/-- Signature built by comparison_engine.compare_reports: testcase|error. -/
def cmpSig (f : CmpRecord) : String :=
  f.testcase ++ "|" ++ f.error

/-- Result of comparison_engine.compare_reports. The fixed component is a
list of signature strings (the set difference of the baseline dict's keys),
not a list of records. -/
structure CmpReportsResult where
  new : List CmpRecord
  known : List CmpRecord
  fixed : List String
  deriving Repr, DecidableEq

/-- The partition loop of comparison_engine.compare_reports. -/
def cmpLoop (baselineSigs : List String) :
    List CmpRecord → List CmpRecord × List CmpRecord
  | [] => ([], [])
  | f :: rest =>
    let r := cmpLoop baselineSigs rest
    if cmpSig f ∈ baselineSigs then (r.1, f :: r.2) else (f :: r.1, r.2)

/-- comparison_engine.compare_reports: the baseline argument is a dict keyed
by signature, embedded here as its (duplicate-free in practice) key list.
Python renders the fixed set in unspecified order; this embedding keeps the
baseline key order. -/
def compare_reports (newList : List CmpRecord) (baselineSigs : List String) :
    CmpReportsResult :=
  let r := cmpLoop baselineSigs newList
  let newSigs := (newList.map cmpSig).dedup
  { new := r.1
    known := r.2
    fixed := baselineSigs.dedup.filter (fun s => !(decide (s ∈ newSigs))) }

/-- One entry of baseline_history_manager: timestamp, failure_count, the full
failure snapshot and the report type. -/
structure HistEntry (α : Type) where
  timestamp : String
  failure_count : Nat
  failures : List α
  report_type : String
  deriving Repr, DecidableEq

/-- Content of one history file. jsonNonList stands for valid JSON that is not
an array (modelled as a non-sequence value such as a number). -/
inductive HistFile (α : Type) where
  | emptyFile : HistFile α
  | entries : List (HistEntry α) → HistFile α
  | jsonNonList : HistFile α
  | corrupt : HistFile α
  deriving Repr, DecidableEq

/-- History state: one optional file per project name and directory. The
directory is PROVAR_HISTORY_DIR exactly when the report type equals
"provar", API_HISTORY_DIR for every other report type string. -/
def HistoryState (α : Type) : Type := String → Bool → Option (HistFile α)

/-- Directory selector of baseline_history_manager._get_history_path. -/
def histDirIsProvar (report_type : String) : Bool :=
  report_type == "provar"

/-- Pointwise update of a history state. -/
def histWrite (st : HistoryState α) (project : String) (dir : Bool)
    (v : HistFile α) : HistoryState α :=
  fun p d => if p = project ∧ d = dir then some v else st p d

/-- History state with no files at all. -/
def emptyHistory : HistoryState α := fun _ _ => none

/-- Loading at the start of save_baseline_history: a missing file starts the
history empty; JSONDecodeError on an empty or corrupt file is caught by the
bare except and also yields empty; a JSON non-list loads successfully and the
later history.append raises AttributeError. -/
def loadHistoryForAppend : Option (HistFile α) → Except PyError (List (HistEntry α))
  | none => Except.ok []
  | some (HistFile.entries l) => Except.ok l
  | some HistFile.emptyFile => Except.ok []
  | some HistFile.corrupt => Except.ok []
  | some HistFile.jsonNonList => Except.error (PyError.attributeError "append")

/-- Python list slice l[-n:]: the last n elements (all of them when the list
is shorter). -/
def pyLastN (l : List α) (n : Nat) : List α :=
  l.drop (l.length - n)

/-- Remote environment: the configured GITHUB_TOKEN and the outcome each of
the two requests calls of a mirror push would have (an exception, or a
response with its status code and optional sha). -/
structure GhResp where
  status : Nat
  sha : Option String
  deriving Repr, DecidableEq

/-- Process environment and remote-call oracle for one save operation. -/
structure Env where
  adminEnv : Option String
  githubToken : Option String
  now : String
  remoteGet : Except PyError GhResp
  remotePut : Except PyError Unit
  deriving Repr

/-- Body of baseline_history_manager._commit_history_to_github without its
try/except: returns early when no token is configured, otherwise performs the
requests.get (whose raised exception would propagate) and the requests.put.
Non-exception HTTP failures are ignored (the response is never checked). -/
def commit_history_attempt (env : Env) : Except PyError Unit :=
  if ¬(truthy env.githubToken) then Except.ok ()
  else
    match env.remoteGet with
    | Except.error e => Except.error e
    | Except.ok _ =>
      match env.remotePut with
      | Except.error e => Except.error e
      | Except.ok _ => Except.ok ()

/-- baseline_history_manager._commit_history_to_github: the whole body is
wrapped in try/except pass, so every outcome collapses to success. -/
def commit_history_to_github (env : Env) : Except PyError Unit :=
  match commit_history_attempt env with
  | Except.error _ => Except.ok ()
  | Except.ok _ => Except.ok ()

/-- baseline_history_manager.save_baseline_history: load the existing entries,
append a new entry stamped with the current time, keep only the last 50,
persist, then mirror to GitHub (always swallowed). -/
def save_baseline_history (env : Env) (project : String) (failures : List α)
    (report_type : String) (st : HistoryState α) :
    Except PyError (HistoryState α) :=
  let dir := histDirIsProvar report_type
  match loadHistoryForAppend (st project dir) with
  | Except.error e => Except.error e
  | Except.ok old =>
    let entry : HistEntry α :=
      { timestamp := env.now, failure_count := failures.length,
        failures := failures, report_type := report_type }
    let newHist := pyLastN (old ++ [entry]) 50
    let st2 := histWrite st project dir (HistFile.entries newHist)
    match commit_history_to_github env with
    | Except.error e => Except.error e
    | Except.ok _ => Except.ok st2

/-- baseline_history_manager.get_baseline_history: most recent first,
truncated to limit; any read or parse failure (missing file, empty file,
corrupt JSON, non-sequence JSON) yields the empty list via the bare except. -/
def get_baseline_history (st : HistoryState α) (project : String)
    (report_type : String) (limit : Nat) : List (HistEntry α) :=
  match st project (histDirIsProvar report_type) with
  | some (HistFile.entries l) => l.reverse.take limit
  | _ => []

/-- baseline_history_manager.delete_baseline_version: admin gate first
(PermissionError when BASELINE_ADMIN_KEY is unset, empty, or differs from
admin_key, whose Python default is None); FileNotFoundError when the history
file is absent; the unguarded json.load propagates a JSONDecodeError on an
empty or corrupt file and reversed() raises TypeError on non-sequence JSON;
otherwise the entry at version_index of the most-recent-first view is removed
(IndexError when version_index is at or past the length) and the remainder is
written back oldest first. -/
def delete_baseline_version (adminEnv : Option String) (project : String)
    (version_index : Nat) (report_type : String) (admin_key : Option String)
    (st : HistoryState α) : Except PyError (HistoryState α) :=
  match adminEnv with
  | none => Except.error (PyError.permissionError "Admin key invalid")
  | some expected =>
    if expected == "" ∨ ¬(admin_key = some expected) then
      Except.error (PyError.permissionError "Admin key invalid")
    else
      let dir := histDirIsProvar report_type
      match st project dir with
      | none => Except.error (PyError.fileNotFoundError project)
      | some HistFile.emptyFile => Except.error (PyError.jsonDecodeError "Expecting value")
      | some HistFile.corrupt => Except.error (PyError.jsonDecodeError "Expecting value")
      | some HistFile.jsonNonList => Except.error (PyError.typeError "argument to reversed() must be a sequence")
      | some (HistFile.entries l) =>
        let view := l.reverse
        if version_index < view.length then
          Except.ok (histWrite st project dir
            (HistFile.entries (view.eraseIdx version_index).reverse))
        else
          Except.error (PyError.indexError (toString version_index))

/-- Combined local state touched by baseline_manager.save_baseline: the
per-project baseline files and the history files. -/
structure SysState where
  baselines : Store FailureRecord
  history : HistoryState FailureRecord

/-- Body of baseline_manager._commit_to_github. Unlike the history variant it
has no try/except: a requests exception raised by either call propagates to
the caller. A missing token returns early; HTTP error statuses are ignored. -/
def commit_to_github (env : Env) : Except PyError Unit :=
  if ¬(truthy env.githubToken) then Except.ok ()
  else
    match env.remoteGet with
    | Except.error e => Except.error e
    | Except.ok _ =>
      match env.remotePut with
      | Except.error e => Except.error e
      | Except.ok _ => Except.ok ()

/-- baseline_manager.save_baseline: RuntimeError when BASELINE_ADMIN_KEY is
unset or empty, PermissionError when admin_key differs; otherwise the
baseline file is overwritten with the failures list (failures or [] equals
the list itself), then save_baseline_history appends for report type provar,
then _commit_to_github pushes the mirror. The state reached before a raising
step is kept, since the file writes have already happened. -/
def save_baseline (env : Env) (project : String) (failures : List FailureRecord)
    (admin_key : String) (st : SysState) : Except PyError Unit × SysState :=
  match env.adminEnv with
  | none => (Except.error (PyError.runtimeError "BASELINE_ADMIN_KEY not configured"), st)
  | some expected =>
    if expected == "" then
      (Except.error (PyError.runtimeError "BASELINE_ADMIN_KEY not configured"), st)
    else if ¬(admin_key = expected) then
      (Except.error (PyError.permissionError "Admin key invalid"), st)
    else
      let st1 : SysState :=
        { st with baselines := storeWrite st.baselines project (StoreFile.jsonList failures) }
      match save_baseline_history env project failures "provar" st1.history with
      | Except.error e => (Except.error e, st1)
      | Except.ok h =>
        let st2 : SysState := { st1 with history := h }
        match commit_to_github env with
        | Except.error e => (Except.error e, st2)
        | Except.ok _ => (Except.ok (), st2)

/-- app.shorten_project_cache_path: empty stays empty; a path containing the
Jenkins marker keeps everything after its first occurrence; otherwise slashes
are normalized to backslashes and only the last component is kept. -/
def shorten_project_cache_path (path : String) : String :=
  if path == "" then ""
  else
    let marker := "Jenkins\\"
    let pieces := path.splitOn marker
    if pieces.length > 1 then String.intercalate marker pieces.tail
    else ((path.replace "/" "\\").splitOn "\\").getLastD ""

/-- One raw dictionary handed to the normalization loop of
app.process_uploaded_files. none models an absent key (a direct index on it
raises KeyError, a .get supplies the default). -/
structure RawProvarRecord where
  name : Option String
  testcase_path : Option String
  error : Option String
  details : Option String
  webBrowserType : Option String
  projectCachePath : Option String
  deriving Repr, DecidableEq

/-- The body of the normalization loop for one record: records named
__NO_FAILURES__ are skipped; otherwise name, error and details are read by
direct indexing (KeyError when absent) while testcase_path, webBrowserType
and projectCachePath are read with .get defaults. -/
def normalizeRecord (source : String) (f : RawProvarRecord) :
    Except PyError (Option FailureRecord) :=
  if f.name = some "__NO_FAILURES__" then Except.ok none
  else
    match f.name with
    | none => Except.error (PyError.keyError "name")
    | some n =>
      match f.error with
      | none => Except.error (PyError.keyError "error")
      | some e =>
        match f.details with
        | none => Except.error (PyError.keyError "details")
        | some d =>
          Except.ok (some
            { testcase := n
              testcase_path := f.testcase_path.getD ""
              error := e
              details := d
              source := source
              webBrowserType := f.webBrowserType.getD "Unknown"
              projectCachePath :=
                shorten_project_cache_path (f.projectCachePath.getD "") })

/-- The normalization loop of app.process_uploaded_files over a parsed file's
records; the first raising record aborts the whole upload handler. -/
def normalizeFailures (source : String) :
    List RawProvarRecord → Except PyError (List FailureRecord)
  | [] => Except.ok []
  | f :: rest =>
    match normalizeRecord source f with
    | Except.error e => Except.error e
    | Except.ok none => normalizeFailures source rest
    | Except.ok (some r) =>
      match normalizeFailures source rest with
      | Except.error e => Except.error e
      | Except.ok rs => Except.ok (r :: rs)

/-! Sample records, environments and states for concrete instances. -/

/-- Provar record with the given testcase and error, blank metadata. -/
def pr (t e : String) : FailureRecord :=
  { testcase := t, testcase_path := "", error := e, details := "", source := "",
    webBrowserType := "", projectCachePath := "" }

/-- AutomationAPI manager record with the given identity fields. -/
def apiRec (s t e : String) (noF : Bool) : ApiRecord :=
  { project := "P", spec_file := s, test_name := t, error_summary := e,
    is_skipped := false, details := "", timestamp := "", no_failures := noF }

/-- Extractor record with the given spec, test and error. -/
def apiX (s t e : String) : ApiXRecord :=
  { name := t, spec_name := s, spec_file_path := "", testcase_name := t,
    error := e, error_type := "", error_details := "", is_skipped := false,
    skip_reason := "", timestamp := "", no_failures := false }

/-- Environment in which the GitHub mirror's first network call raises a
requests connection error while a token is configured. -/
def connectionFailEnv : Env :=
  { adminEnv := some "k", githubToken := some "t", now := "2026-01-01 00:00:00",
    remoteGet := Except.error (PyError.requestException "ConnectionError"),
    remotePut := Except.ok () }

/-- Sample provar-type history entry, oldest generation. -/
def histEntryA : HistEntry FailureRecord :=
  { timestamp := "2026-01-01 00:00:00", failure_count := 0, failures := [],
    report_type := "provar" }

/-- Sample provar-type history entry, newly appended generation. -/
def histEntryB : HistEntry FailureRecord :=
  { timestamp := "2026-01-02 00:00:00", failure_count := 0, failures := [],
    report_type := "provar" }

/-- Environment with admin key k, no GitHub token, and a clock reading the
timestamp of histEntryB. -/
def plainEnv : Env :=
  { adminEnv := some "k", githubToken := none, now := "2026-01-02 00:00:00",
    remoteGet := Except.ok { status := 404, sha := none },
    remotePut := Except.ok () }

/-- History state whose file for project P, provar type, holds 50 entries. -/
def fullHistory : HistoryState FailureRecord :=
  histWrite emptyHistory "P" true (HistFile.entries (List.replicate 50 histEntryA))

/-- The state produced by appending histEntryB to fullHistory. -/
def fullHistoryAfter : HistoryState FailureRecord :=
  histWrite fullHistory "P" true
    (HistFile.entries (pyLastN (List.replicate 50 histEntryA ++ [histEntryB]) 50))

/-- History state whose file for project P, provar type, holds three entries,
oldest first on disk: histEntryA, then histEntryB, then a third entry with
failure count one. -/
def threeHistory : HistoryState FailureRecord :=
  histWrite emptyHistory "P" true (HistFile.entries
    [histEntryA, histEntryB,
     { timestamp := "2026-01-03 00:00:00", failure_count := 1,
       failures := [pr "T1" "E1"], report_type := "provar" }])

/-! Helper theorems: loop characterizations and list facts. -/

theorem provarCompareLoop_eq_filter (keys : List String) (l : List FailureRecord) :
    provarCompareLoop keys l =
      (l.filter (fun f => !(decide (provarKey f ∈ keys))),
       l.filter (fun f => decide (provarKey f ∈ keys))) := by
  induction l with
  | nil => rfl
  | cons f rest ih =>
    simp only [provarCompareLoop, ih, List.filter]
    by_cases h : provarKey f ∈ keys <;> simp [h]

theorem length_filter_add_length_filter_not (p : α → Bool) (l : List α) :
    (l.filter p).length + (l.filter (fun a => !(p a))).length = l.length := by
  induction l with
  | nil => rfl
  | cons a rest ih =>
    rw [List.filter_cons, List.filter_cons]
    by_cases h : p a
    · rw [if_pos h, if_neg (by simp [h])]
      simp only [List.length_cons]
      omega
    · rw [if_neg h, if_pos (by simp [Bool.eq_false_iff.mpr h])]
      simp only [List.length_cons]
      omega

theorem apiCompareLoop_eq_filter (sigs : List String) (l : List ApiRecord) :
    apiCompareLoop sigs l =
      ((l.filter (fun f => !f.no_failures)).filter
         (fun f => !(decide (apiSig f ∈ sigs))),
       (l.filter (fun f => !f.no_failures)).filter
         (fun f => decide (apiSig f ∈ sigs))) := by
  induction l with
  | nil => rfl
  | cons f rest ih =>
    simp only [apiCompareLoop, ih, List.filter]
    by_cases hn : f.no_failures
    · simp [hn]
    · by_cases h : apiSig f ∈ sigs <;> simp [hn, h]

/-! Helper lemmas about the comparison embeddings. -/

theorem dropSentinelList_eq_self {l : List ApiXRecord}
    (h : ∀ f ∈ l, f.no_failures = false) : dropSentinelList l = l := by
  cases l with
  | nil => rfl
  | cons f rest => simp [dropSentinelList, h f (List.mem_cons_self f rest)]

theorem lastWithKey_eq_some_imp {l : List ApiXRecord} {k : String} {c : ApiXRecord}
    (h : lastWithKey l k = some c) : c ∈ l ∧ apiXKey c = k := by
  have hm := List.mem_of_getLast?_eq_some h
  have := (List.mem_filter.mp hm).2
  exact ⟨(List.mem_filter.mp hm).1, by simpa using this⟩

theorem lastWithKey_isSome_of_mem {l : List ApiXRecord} {b : ApiXRecord}
    (hb : b ∈ l) : ∃ c, lastWithKey l (apiXKey b) = some c := by
  have hmem : b ∈ l.filter (fun f => apiXKey f == apiXKey b) :=
    List.mem_filter.mpr ⟨hb, by simp⟩
  have hne : l.filter (fun f => apiXKey f == apiXKey b) ≠ [] :=
    List.ne_nil_of_mem hmem
  have := List.getLast?_isSome.mpr hne
  rcases Option.isSome_iff_exists.mp this with ⟨c, hc⟩
  exact ⟨c, hc⟩

/-- CLAIM C1. Records agreeing on the identity tuple are treated as the same
failure by every comparison operation: whenever the baseline holds a record
with b's identity tuple — (testcase, error) for the provar comparator,
(spec_file, test_name, error_summary) for the AutomationAPI comparator,
(spec_name, testcase_name, error) for the extractor-level comparison — a
current failure record b lands in the existing/common output and never in the
new output, whatever its details, timestamp or source metadata. -/
theorem C1_identity_invariant :
    (∀ (st : Store FailureRecord) (project : String) (current : List FailureRecord)
       (b : FailureRecord),
       b ∈ current →
       (∃ a ∈ load_baseline st project, a.testcase = b.testcase ∧ a.error = b.error) →
       b ∈ (compare_with_baseline st project current).2 ∧
       b ∉ (compare_with_baseline st project current).1) ∧
    (∀ (st : Store ApiCleanRecord) (project : String) (current : List ApiRecord)
       (b : ApiRecord),
       b ∈ current → b.no_failures = false →
       (∃ a ∈ api_load_baseline st project,
          a.spec_file = b.spec_file ∧ a.test_name = b.test_name ∧
          a.error_summary = b.error_summary) →
       b ∈ (api_compare_with_baseline st project current).2 ∧
       b ∉ (api_compare_with_baseline st project current).1) ∧
    (∀ (current baseline : List ApiXRecord) (b : ApiXRecord),
       (∀ f ∈ current, f.no_failures = false) →
       (∀ f ∈ baseline, f.no_failures = false) →
       b ∈ current →
       (∃ a ∈ baseline, a.spec_name = b.spec_name ∧
          a.testcase_name = b.testcase_name ∧ a.error = b.error) →
       b ∉ (compare_api_reports current baseline).new_failures ∧
       (∃ c ∈ (compare_api_reports current baseline).common_failures,
          apiXKey c = apiXKey b)) := by
  refine ⟨?_, ?_, ?_⟩
  · intro st project current b hb ⟨a, ha, ht, he⟩
    have hkey : provarKey b ∈ (load_baseline st project).map provarKey := by
      have : provarKey a = provarKey b := by
        unfold provarKey; rw [ht, he]
      exact this ▸ List.mem_map_of_mem provarKey ha
    unfold compare_with_baseline
    rw [provarCompareLoop_eq_filter]
    constructor
    · exact List.mem_filter.mpr ⟨hb, by simpa using hkey⟩
    · intro hmem
      have := (List.mem_filter.mp hmem).2
      simp [hkey] at this
  · intro st project current b hb hnf ⟨a, ha, hs, ht, he⟩
    have hkey : apiSig b ∈ (api_load_baseline st project).map apiCleanSig := by
      have : apiCleanSig a = apiSig b := by
        unfold apiCleanSig apiSig; rw [hs, ht, he]
      exact this ▸ List.mem_map_of_mem apiCleanSig ha
    have hb2 : b ∈ current.filter (fun f => !f.no_failures) :=
      List.mem_filter.mpr ⟨hb, by simp [hnf]⟩
    unfold api_compare_with_baseline
    rw [apiCompareLoop_eq_filter]
    constructor
    · exact List.mem_filter.mpr ⟨hb2, by simpa using hkey⟩
    · intro hmem
      have := (List.mem_filter.mp hmem).2
      simp [hkey] at this
  · intro current baseline b hc hbl hb ⟨a, ha, hs, ht, he⟩
    have hkeyab : apiXKey a = apiXKey b := by
      unfold apiXKey; rw [hs, ht]
    have hdc : dropSentinelList current = current := dropSentinelList_eq_self hc
    have hdb : dropSentinelList baseline = baseline := dropSentinelList_eq_self hbl
    have hkb : apiXKey b ∈ xKeys baseline := by
      unfold xKeys
      exact List.mem_dedup.mpr (hkeyab ▸ List.mem_map_of_mem apiXKey ha)
    have hkc : apiXKey b ∈ xKeys current := by
      unfold xKeys
      exact List.mem_dedup.mpr (List.mem_map_of_mem apiXKey hb)
    constructor
    · intro hmem
      unfold compare_api_reports at hmem
      simp only [hdc, hdb] at hmem
      rcases List.mem_filterMap.mp hmem with ⟨k, hk, hlast⟩
      have hkk : apiXKey b = k := (lastWithKey_eq_some_imp hlast).2
      have := (List.mem_filter.mp hk).2
      rw [← hkk] at this
      simp [hkb] at this
    · rcases lastWithKey_isSome_of_mem hb with ⟨c, hcsome⟩
      refine ⟨c, ?_, (lastWithKey_eq_some_imp hcsome).2⟩
      unfold compare_api_reports
      simp only [hdc, hdb]
      exact List.mem_filterMap.mpr
        ⟨apiXKey b, List.mem_filter.mpr ⟨hkc, by simp [hkb]⟩, hcsome⟩

/-- Witness for C1 at concrete records: a baseline holding T1 with error E1
and blank details, compared against a current record T1 with error E1 but
different details, classifies the current record as existing, not new. -/
theorem C1_identity_invariant_witness :
    (pr "T1" "E1") ∈
      (compare_with_baseline
        (storeWrite emptyStore "P" (StoreFile.jsonList
          [{ pr "T1" "E1" with details := "stack trace A" }]))
        "P" [pr "T1" "E1"]).2 ∧
    (pr "T1" "E1") ∉
      (compare_with_baseline
        (storeWrite emptyStore "P" (StoreFile.jsonList
          [{ pr "T1" "E1" with details := "stack trace A" }]))
        "P" [pr "T1" "E1"]).1 :=
  C1_identity_invariant.1
    (storeWrite emptyStore "P" (StoreFile.jsonList
      [{ pr "T1" "E1" with details := "stack trace A" }]))
    "P" [pr "T1" "E1"] (pr "T1" "E1") (by decide)
    ⟨{ pr "T1" "E1" with details := "stack trace A" }, by decide, by decide, by decide⟩

/-- CLAIM C2, counterexample. The AutomationAPI comparator silently skips a
record flagged _no_failures, so on the one-element list holding such a record
the two outputs together have fewer elements than the input: the partition
completeness equation of the claim fails. -/
theorem C2_partition_completeness_counterexample :
    (api_compare_with_baseline emptyStore "P" [apiRec "" "" "" true]).1.length +
      (api_compare_with_baseline emptyStore "P" [apiRec "" "" "" true]).2.length ≠
      ([apiRec "" "" "" true] : List ApiRecord).length := by
  decide

/-- CLAIM C2, amended. The provar comparator is a stable partition: the two
output lengths add up to the input length, no record value is in both
outputs, and each output is a sublist of the input. The AutomationAPI
comparator has the same properties relative to the input with its
_no_failures-flagged records removed; when no record is flagged, the original
length equation holds there too. -/
theorem C2_partition_completeness :
    (∀ (st : Store FailureRecord) (project : String) (current : List FailureRecord),
       ((compare_with_baseline st project current).1.length +
          (compare_with_baseline st project current).2.length = current.length) ∧
       (∀ f, ¬(f ∈ (compare_with_baseline st project current).1 ∧
               f ∈ (compare_with_baseline st project current).2)) ∧
       (compare_with_baseline st project current).1.Sublist current ∧
       (compare_with_baseline st project current).2.Sublist current) ∧
    (∀ (st : Store ApiCleanRecord) (project : String) (current : List ApiRecord),
       ((api_compare_with_baseline st project current).1.length +
          (api_compare_with_baseline st project current).2.length =
          (current.filter (fun f => !f.no_failures)).length) ∧
       (∀ f, ¬(f ∈ (api_compare_with_baseline st project current).1 ∧
               f ∈ (api_compare_with_baseline st project current).2)) ∧
       (api_compare_with_baseline st project current).1.Sublist current ∧
       (api_compare_with_baseline st project current).2.Sublist current ∧
       ((∀ f ∈ current, f.no_failures = false) →
         (api_compare_with_baseline st project current).1.length +
           (api_compare_with_baseline st project current).2.length =
           current.length)) := by
  constructor
  · intro st project current
    unfold compare_with_baseline
    rw [provarCompareLoop_eq_filter]
    refine ⟨?_, ?_, List.filter_sublist current, List.filter_sublist current⟩
    · rw [Nat.add_comm]
      exact length_filter_add_length_filter_not _ current
    · intro f ⟨h1, h2⟩
      have e1 := (List.mem_filter.mp h1).2
      have e2 := (List.mem_filter.mp h2).2
      rw [e2] at e1
      exact absurd e1 (by decide)
  · intro st project current
    unfold api_compare_with_baseline
    rw [apiCompareLoop_eq_filter]
    have hlen : ∀ (l : List ApiRecord) (p : ApiRecord → Bool),
        (l.filter (fun f => !(p f))).length + (l.filter p).length = l.length := by
      intro l p
      rw [Nat.add_comm]
      exact length_filter_add_length_filter_not p l
    refine ⟨hlen _ _, ?_, ?_, ?_, ?_⟩
    · intro f ⟨h1, h2⟩
      have e1 := (List.mem_filter.mp h1).2
      have e2 := (List.mem_filter.mp h2).2
      rw [e2] at e1
      exact absurd e1 (by decide)
    · exact (List.filter_sublist _).trans (List.filter_sublist current)
    · exact (List.filter_sublist _).trans (List.filter_sublist current)
    · intro hall
      rw [hlen _ _]
      congr 1
      exact List.filter_eq_self.mpr fun f hf => by simp [hall f hf]

/-- Witness for the amended C2 at a concrete input: on a current list with
one genuine failure and no baseline, the two output lengths add up to one. -/
theorem C2_partition_completeness_witness :
    (api_compare_with_baseline emptyStore "P" [apiRec "S" "T" "E" false]).1.length +
      (api_compare_with_baseline emptyStore "P" [apiRec "S" "T" "E" false]).2.length =
      ([apiRec "S" "T" "E" false] : List ApiRecord).length :=
  (C2_partition_completeness.2 emptyStore "P" [apiRec "S" "T" "E" false]).2.2.2.2
    (by decide)

/-- With a configured admin key and a matching credential, save_baseline
always leaves the project's baseline file overwritten with the failures list,
whatever the history and mirror steps do afterwards. -/
theorem save_baseline_writes (env : Env) (project : String)
    (failures : List FailureRecord) (key : String) (st : SysState)
    (henv : env.adminEnv = some key) (hkey : key ≠ "") :
    (save_baseline env project failures key st).2.baselines =
      storeWrite st.baselines project (StoreFile.jsonList failures) := by
  unfold save_baseline
  rw [henv]
  have h1 : (key == "") = false := by simp [hkey]
  simp only [h1, Bool.false_eq_true, if_false, not_true_eq_false]
  cases save_baseline_history env project failures "provar" st.history with
  | error e => simp
  | ok h =>
    cases commit_to_github env with
    | error e => simp
    | ok u => simp

/-- CLAIM C3. Saving an empty failure list with a valid credential makes the
baseline file exist while load still returns the empty list, and this state
is distinguishable from the absent-file state, where exists is false and load
also returns the empty list. -/
theorem C3_empty_vs_absent :
    (∀ (env : Env) (project : String) (key : String) (st : SysState),
       env.adminEnv = some key → key ≠ "" →
       baseline_exists (save_baseline env project [] key st).2.baselines project = true ∧
       load_baseline (save_baseline env project [] key st).2.baselines project = []) ∧
    (∀ (st : Store FailureRecord) (project : String),
       st project = none →
       baseline_exists st project = false ∧ load_baseline st project = []) := by
  constructor
  · intro env project key st henv hkey
    rw [save_baseline_writes env project [] key st henv hkey]
    constructor
    · simp [baseline_exists, storeWrite]
    · simp [load_baseline, storeWrite]
  · intro st project habs
    constructor
    · simp [baseline_exists, habs]
    · simp [load_baseline, habs]

/-- Witness for C3: with admin key k configured, saving the empty baseline
for project P over the fresh state yields exists true and load empty, while
the fresh state itself has exists false and load empty. -/
theorem C3_empty_vs_absent_witness :
    (baseline_exists
        (save_baseline
          { adminEnv := some "k", githubToken := none, now := "2026-01-01 00:00:00",
            remoteGet := Except.ok { status := 200, sha := none },
            remotePut := Except.ok () }
          "P" [] "k" { baselines := emptyStore, history := emptyHistory }).2.baselines
        "P" = true ∧
      load_baseline
        (save_baseline
          { adminEnv := some "k", githubToken := none, now := "2026-01-01 00:00:00",
            remoteGet := Except.ok { status := 200, sha := none },
            remotePut := Except.ok () }
          "P" [] "k" { baselines := emptyStore, history := emptyHistory }).2.baselines
        "P" = []) ∧
    (baseline_exists (emptyStore : Store FailureRecord) "P" = false ∧
      load_baseline (emptyStore : Store FailureRecord) "P" = []) :=
  ⟨C3_empty_vs_absent.1
      { adminEnv := some "k", githubToken := none, now := "2026-01-01 00:00:00",
        remoteGet := Except.ok { status := 200, sha := none },
        remotePut := Except.ok () }
      "P" "k" { baselines := emptyStore, history := emptyHistory } rfl (by decide),
   C3_empty_vs_absent.2 emptyStore "P" rfl⟩

/-- CLAIM C4. A save with a credential different from the configured admin
secret fails with the authorization error and performs no write: the provar
variant returns the state unchanged (baseline files and history ledger both),
and the AutomationAPI variant returns no new store at all. -/
theorem C4_authorization_gate :
    (∀ (env : Env) (project : String) (failures : List FailureRecord)
       (key exp : String) (st : SysState),
       env.adminEnv = some exp → exp ≠ "" → key ≠ exp →
       save_baseline env project failures key st =
         (Except.error (PyError.permissionError "Admin key invalid"), st)) ∧
    (∀ (adminEnv : Option String) (project : String) (failures : List ApiRecord)
       (key exp : String) (st : Store ApiCleanRecord),
       adminEnv = some exp → exp ≠ "" → key ≠ exp →
       api_save_baseline adminEnv project failures key st =
         Except.error (PyError.permissionError "Admin key invalid")) := by
  constructor
  · intro env project failures key exp st henv hexp hne
    unfold save_baseline
    rw [henv]
    have h1 : (exp == "") = false := by simp [hexp]
    simp [h1, hne]
  · intro adminEnv project failures key exp st henv hexp hne
    unfold api_save_baseline
    rw [henv]
    have h1 : (exp == "") = false := by simp [hexp]
    simp [h1, hne]

/-- Witness for C4: a concrete rejected save on both variants leaves the
concrete initial state untouched. -/
theorem C4_authorization_gate_witness :
    (save_baseline
        { adminEnv := some "secret", githubToken := none, now := "2026-01-01 00:00:00",
          remoteGet := Except.ok { status := 200, sha := none },
          remotePut := Except.ok () }
        "P" [pr "T1" "E1"] "wrong" { baselines := emptyStore, history := emptyHistory } =
      (Except.error (PyError.permissionError "Admin key invalid"),
        { baselines := emptyStore, history := emptyHistory })) ∧
    (api_save_baseline (some "secret") "P" [apiRec "S" "T" "E" false] "wrong" emptyStore =
      Except.error (PyError.permissionError "Admin key invalid")) :=
  ⟨C4_authorization_gate.1
      { adminEnv := some "secret", githubToken := none, now := "2026-01-01 00:00:00",
        remoteGet := Except.ok { status := 200, sha := none },
        remotePut := Except.ok () }
      "P" [pr "T1" "E1"] "wrong" "secret"
      { baselines := emptyStore, history := emptyHistory } rfl (by decide) (by decide),
   C4_authorization_gate.2 (some "secret") "P" [apiRec "S" "T" "E" false]
      "wrong" "secret" emptyStore rfl (by decide) (by decide)⟩

/-- CLAIM C5, divergence. The history mirror push is silently swallowed for
every environment, but the baseline mirror push of baseline_manager has no
try/except: with a token configured and the network failing, an authorized
save_baseline writes the local baseline file and then propagates the requests
exception to its caller instead of swallowing it. -/
theorem C5_remote_mirror_not_swallowed :
    (∀ env : Env, commit_history_to_github env = Except.ok ()) ∧
    (save_baseline connectionFailEnv "P" []
        "k" { baselines := emptyStore, history := emptyHistory }).1 =
      Except.error (PyError.requestException "ConnectionError") ∧
    (save_baseline connectionFailEnv "P" []
        "k" { baselines := emptyStore, history := emptyHistory }).2.baselines "P" =
      some (StoreFile.jsonList []) := by
  refine ⟨?_, ?_, ?_⟩
  · intro env
    unfold commit_history_to_github
    cases commit_history_attempt env <;> rfl
  · rfl
  · rfl

/-! Helper lemmas for the history ledger. -/

theorem commit_history_ok (env : Env) :
    commit_history_to_github env = Except.ok () := by
  unfold commit_history_to_github
  cases commit_history_attempt env <;> rfl

theorem pyLastN_length_le (l : List α) (n : Nat) : (pyLastN l n).length ≤ n := by
  simp only [pyLastN, List.length_drop]
  omega

theorem pyLastN_append_last (l : List α) (e : α) (n : Nat) (hn : 1 ≤ n) :
    pyLastN (l ++ [e]) n = l.drop (l.length + 1 - n) ++ [e] := by
  unfold pyLastN
  rw [List.length_append]
  simp only [List.length_singleton]
  rw [List.drop_append_of_le_length (by omega)]

/-- CLAIM C6. After every append the ledger holds at most 50 entries;
appending to a full 50-entry ledger keeps the 50 most recent with the oldest
(first on disk) evicted; and the retrieval function returns the entries
most-recent-first truncated to the limit, the appended entry at position 0. -/
theorem C6_history_cap :
    ∀ (env : Env) (project : String) (failures : List FailureRecord) (rt : String)
      (st st' : HistoryState FailureRecord),
      save_baseline_history env project failures rt st = Except.ok st' →
      ((∃ l', st' project (histDirIsProvar rt) = some (HistFile.entries l') ∧
          l'.length ≤ 50) ∧
       (∀ l, st project (histDirIsProvar rt) = some (HistFile.entries l) →
          l.length = 50 →
          st' project (histDirIsProvar rt) = some (HistFile.entries
            (l.drop 1 ++
              [{ timestamp := env.now, failure_count := failures.length,
                 failures := failures, report_type := rt }]))) ∧
       (∀ limit, 0 < limit →
          (get_baseline_history st' project rt limit).head? =
            some { timestamp := env.now, failure_count := failures.length,
                   failures := failures, report_type := rt })) := by
  intro env project failures rt st st' h
  cases hload : loadHistoryForAppend (st project (histDirIsProvar rt)) with
  | error e =>
    simp only [save_baseline_history, commit_history_ok, hload] at h
    cases h
  | ok old =>
    simp only [save_baseline_history, commit_history_ok, hload,
      Except.ok.injEq] at h
    subst h
    refine ⟨?_, ?_, ?_⟩
    · exact ⟨pyLastN (old ++
          [{ timestamp := env.now, failure_count := failures.length,
             failures := failures, report_type := rt }]) 50,
        by simp [histWrite], pyLastN_length_le _ 50⟩
    · intro l hst hlen
      rw [hst] at hload
      simp only [loadHistoryForAppend, Except.ok.injEq] at hload
      subst hload
      rw [pyLastN_append_last _ _ _ (by omega), hlen]
      simp [histWrite]
    · intro limit hlim
      cases limit with
      | zero => omega
      | succ m =>
        simp [get_baseline_history, histWrite,
          pyLastN_append_last _ _ _ (show (1 : Nat) ≤ 50 by omega)]

/-- Witness for C6: appending a 51st entry to a 50-entry ledger keeps exactly
the 50 most recent entries, evicting the oldest, and retrieval puts the new
entry at position 0. -/
theorem C6_history_cap_witness :
    (List.replicate 50 histEntryA).length = 50 ∧
    fullHistoryAfter "P" true = some (HistFile.entries
      ((List.replicate 50 histEntryA).drop 1 ++ [histEntryB])) ∧
    (get_baseline_history fullHistoryAfter "P" "provar" 50).head? = some histEntryB := by
  have h := C6_history_cap plainEnv "P" [] "provar" fullHistory fullHistoryAfter rfl
  exact ⟨by simp,
    h.2.1 (List.replicate 50 histEntryA) rfl (by simp),
    h.2.2 50 (by omega)⟩

/-- CLAIM C8. With a valid credential and an in-range 0-based index counted
from the most recent entry, delete_baseline_version removes exactly that
entry of the most-recent-first view, preserving the relative order of the
rest (positions below the index unchanged, positions at or above shifted down
by one), and re-persists the remainder; an out-of-range index fails with
IndexError and a wrong or missing credential with PermissionError. -/
theorem C8_delete_version :
    ∀ (adminEnv : Option String) (exp project rt : String)
      (l : List (HistEntry FailureRecord)) (st : HistoryState FailureRecord) (i : Nat),
      adminEnv = some exp → exp ≠ "" →
      st project (histDirIsProvar rt) = some (HistFile.entries l) →
      ((i < l.length →
          delete_baseline_version adminEnv project i rt (some exp) st =
            Except.ok (histWrite st project (histDirIsProvar rt)
              (HistFile.entries ((l.reverse.eraseIdx i).reverse))) ∧
          (l.reverse.eraseIdx i).length = l.length - 1 ∧
          (∀ j, j < i → (l.reverse.eraseIdx i)[j]? = l.reverse[j]?) ∧
          (∀ j, i ≤ j → (l.reverse.eraseIdx i)[j]? = l.reverse[j + 1]?) ∧
          (∀ limit, get_baseline_history
              (histWrite st project (histDirIsProvar rt)
                (HistFile.entries ((l.reverse.eraseIdx i).reverse)))
              project rt limit = (l.reverse.eraseIdx i).take limit)) ∧
       (l.length ≤ i →
          delete_baseline_version adminEnv project i rt (some exp) st =
            Except.error (PyError.indexError (toString i))) ∧
       (∀ k, k ≠ some exp →
          delete_baseline_version adminEnv project i rt k st =
            Except.error (PyError.permissionError "Admin key invalid"))) := by
  intro adminEnv exp project rt l st i henv hexp hst
  refine ⟨?_, ?_, ?_⟩
  · intro hi
    refine ⟨?_, ?_, ?_, ?_, ?_⟩
    · simp only [delete_baseline_version, henv, hst, List.length_reverse]
      rw [if_neg (by simp [hexp]), if_pos hi]
    · rw [List.length_eraseIdx]
      simp [hi]
    · intro j hj
      exact List.getElem?_eraseIdx_of_lt _ _ _ hj
    · intro j hj
      exact List.getElem?_eraseIdx_of_ge _ _ _ hj
    · intro limit
      simp [get_baseline_history, histWrite]
  · intro hi
    simp only [delete_baseline_version, henv, hst, List.length_reverse]
    rw [if_neg (by simp [hexp]), if_neg (by omega)]
  · intro k hk
    simp only [delete_baseline_version, henv]
    rw [if_pos (Or.inr hk)]

/-- Witness for C8: deleting version index 0 (most recent) of a three-entry
history succeeds, two entries remain, and the entry formerly at index 1 of
the most-recent-first view is now at index 0; index 3 is out of range and a
wrong key is rejected. -/
theorem C8_delete_version_witness :
    (([histEntryA, histEntryB,
        ({ timestamp := "2026-01-03 00:00:00", failure_count := 1,
           failures := [pr "T1" "E1"], report_type := "provar" } :
          HistEntry FailureRecord)].reverse.eraseIdx 0).length = 3 - 1) ∧
    (([histEntryA, histEntryB,
        ({ timestamp := "2026-01-03 00:00:00", failure_count := 1,
           failures := [pr "T1" "E1"], report_type := "provar" } :
          HistEntry FailureRecord)].reverse.eraseIdx 0)[0]? =
      [histEntryA, histEntryB,
        ({ timestamp := "2026-01-03 00:00:00", failure_count := 1,
           failures := [pr "T1" "E1"], report_type := "provar" } :
          HistEntry FailureRecord)].reverse[1]?) ∧
    delete_baseline_version (some "k") "P" 3 "provar" (some "k") threeHistory =
      Except.error (PyError.indexError "3") ∧
    delete_baseline_version (some "k") "P" 0 "provar" (some "wrong") threeHistory =
      Except.error (PyError.permissionError "Admin key invalid") := by
  have h := C8_delete_version (some "k") "k" "P" "provar"
    [histEntryA, histEntryB,
     { timestamp := "2026-01-03 00:00:00", failure_count := 1,
       failures := [pr "T1" "E1"], report_type := "provar" }]
    threeHistory 0 rfl (by decide) rfl
  have h3 := C8_delete_version (some "k") "k" "P" "provar"
    [histEntryA, histEntryB,
     { timestamp := "2026-01-03 00:00:00", failure_count := 1,
       failures := [pr "T1" "E1"], report_type := "provar" }]
    threeHistory 3 rfl (by decide) rfl
  exact ⟨(h.1 (by decide)).2.1, (h.1 (by decide)).2.2.2.1 0 (by decide),
    h3.2.1 (by decide), h.2.2 (some "wrong") (by decide)⟩

/-! Helper lemmas for the extractor-level comparison. -/

theorem mem_filterMap_lastWithKey {l : List ApiXRecord} {ks : List String}
    {r : ApiXRecord} (h : r ∈ ks.filterMap (lastWithKey l)) :
    r ∈ l ∧ apiXKey r ∈ ks := by
  rcases List.mem_filterMap.mp h with ⟨k, hk, hlast⟩
  rcases lastWithKey_eq_some_imp hlast with ⟨hm, hkey⟩
  exact ⟨hm, hkey ▸ hk⟩

theorem exists_mem_filterMap_lastWithKey {l : List ApiXRecord} {ks : List String}
    {b : ApiXRecord} (hb : b ∈ l) (hk : apiXKey b ∈ ks) :
    ∃ c ∈ ks.filterMap (lastWithKey l), apiXKey c = apiXKey b := by
  rcases lastWithKey_isSome_of_mem hb with ⟨c, hc⟩
  exact ⟨c, List.mem_filterMap.mpr ⟨apiXKey b, hk, hc⟩,
    (lastWithKey_eq_some_imp hc).2⟩

/-- CLAIM C7, counterexample. compare_api_reports keys records by
(spec_name, testcase_name) without the error: a current record whose full
identity tuple (spec, test, error) is absent from the baseline's identity set
is nevertheless classified common, not new, when a baseline record shares its
spec and test but has a different error. -/
theorem C7_compare_full_counterexample :
    (compare_api_reports [apiX "S" "T" "E2"] [apiX "S" "T" "E1"]).new_failures = [] ∧
    (compare_api_reports [apiX "S" "T" "E2"] [apiX "S" "T" "E1"]).common_failures =
      [apiX "S" "T" "E2"] ∧
    ¬((apiX "S" "T" "E2").spec_name = (apiX "S" "T" "E1").spec_name ∧
      (apiX "S" "T" "E2").testcase_name = (apiX "S" "T" "E1").testcase_name ∧
      (apiX "S" "T" "E2").error = (apiX "S" "T" "E1").error) := by
  decide

/-- CLAIM C7, amended. With identity weakened to the key the code actually
uses — (spec_name, testcase_name), the error excluded — compare_api_reports
computes new as current records keyed outside the baseline key set, fixed as
baseline records keyed outside the current key set, and common as current
records keyed in both (one representative per key); the T1/T2/T3 scenario
holds verbatim when records are distinguished by test name; and
comparison_engine.compare_reports realizes the same scenario on the
(testcase, error) identity but returns fixed as identity strings, not
records. -/
theorem C7_compare_full :
    (∀ (current baseline : List ApiXRecord),
       (∀ f ∈ current, f.no_failures = false) →
       (∀ f ∈ baseline, f.no_failures = false) →
       ((∀ r, r ∈ (compare_api_reports current baseline).new_failures →
           r ∈ current ∧ apiXKey r ∉ baseline.map apiXKey) ∧
        (∀ r, r ∈ current → apiXKey r ∉ baseline.map apiXKey →
           ∃ c ∈ (compare_api_reports current baseline).new_failures,
             apiXKey c = apiXKey r) ∧
        (∀ r, r ∈ (compare_api_reports current baseline).fixed_failures →
           r ∈ baseline ∧ apiXKey r ∉ current.map apiXKey) ∧
        (∀ r, r ∈ baseline → apiXKey r ∉ current.map apiXKey →
           ∃ c ∈ (compare_api_reports current baseline).fixed_failures,
             apiXKey c = apiXKey r) ∧
        (∀ r, r ∈ (compare_api_reports current baseline).common_failures →
           r ∈ current ∧ apiXKey r ∈ baseline.map apiXKey) ∧
        (∀ r, r ∈ current → apiXKey r ∈ baseline.map apiXKey →
           ∃ c ∈ (compare_api_reports current baseline).common_failures,
             apiXKey c = apiXKey r))) ∧
    (compare_api_reports [apiX "S" "T1" "E1", apiX "S" "T2" "E2"]
        [apiX "S" "T1" "E1", apiX "S" "T3" "E3"] =
      { new_failures := [apiX "S" "T2" "E2"]
        fixed_failures := [apiX "S" "T3" "E3"]
        common_failures := [apiX "S" "T1" "E1"]
        current_total := 2, baseline_total := 2
        new_count := 1, fixed_count := 1, common_count := 1 }) ∧
    (compare_reports
        [{ testcase := "T1", error := "E1", details := "d1" },
         { testcase := "T2", error := "E2", details := "d2" }]
        ["T1|E1", "T3|E3"] =
      { new := [{ testcase := "T2", error := "E2", details := "d2" }]
        known := [{ testcase := "T1", error := "E1", details := "d1" }]
        fixed := ["T3|E3"] }) := by
  refine ⟨?_, by decide, by decide⟩
  intro current baseline hc hb
  have hdc := dropSentinelList_eq_self hc
  have hdb := dropSentinelList_eq_self hb
  simp only [compare_api_reports, hdc, hdb]
  refine ⟨?_, ?_, ?_, ?_, ?_, ?_⟩
  · intro r hr
    rcases mem_filterMap_lastWithKey hr with ⟨hm, hk⟩
    have h2 := (List.mem_filter.mp hk).2
    refine ⟨hm, fun hcontra => ?_⟩
    have : apiXKey r ∈ xKeys baseline := List.mem_dedup.mpr hcontra
    simp [this] at h2
  · intro r hr hout
    refine exists_mem_filterMap_lastWithKey hr (List.mem_filter.mpr ⟨?_, ?_⟩)
    · exact List.mem_dedup.mpr (List.mem_map_of_mem apiXKey hr)
    · simp [xKeys, List.mem_dedup, hout]
  · intro r hr
    rcases mem_filterMap_lastWithKey hr with ⟨hm, hk⟩
    have h2 := (List.mem_filter.mp hk).2
    refine ⟨hm, fun hcontra => ?_⟩
    have : apiXKey r ∈ xKeys current := List.mem_dedup.mpr hcontra
    simp [this] at h2
  · intro r hr hout
    refine exists_mem_filterMap_lastWithKey hr (List.mem_filter.mpr ⟨?_, ?_⟩)
    · exact List.mem_dedup.mpr (List.mem_map_of_mem apiXKey hr)
    · simp [xKeys, List.mem_dedup, hout]
  · intro r hr
    rcases mem_filterMap_lastWithKey hr with ⟨hm, hk⟩
    have h2 := (List.mem_filter.mp hk).2
    refine ⟨hm, ?_⟩
    have := of_decide_eq_true h2
    exact List.mem_dedup.mp this
  · intro r hr hin
    refine exists_mem_filterMap_lastWithKey hr (List.mem_filter.mpr ⟨?_, ?_⟩)
    · exact List.mem_dedup.mpr (List.mem_map_of_mem apiXKey hr)
    · simp [xKeys, List.mem_dedup, hin]

/-- Witness for the amended C7: a current record whose (spec, test) key is
absent from the baseline key set produces a new-failures entry with its key. -/
theorem C7_compare_full_witness :
    (∀ f ∈ [apiX "S" "T2" "E2"], f.no_failures = false) ∧
    (∃ c ∈ (compare_api_reports [apiX "S" "T2" "E2"]
        [apiX "S" "T3" "E3"]).new_failures,
       apiXKey c = apiXKey (apiX "S" "T2" "E2")) :=
  ⟨by decide,
   (C7_compare_full.1 [apiX "S" "T2" "E2"] [apiX "S" "T3" "E3"]
      (by decide) (by decide)).2.1
     (apiX "S" "T2" "E2") (by decide) (by decide)⟩

/-- Records whose non-sentinel entries carry the three directly-indexed keys
normalize without raising. -/
theorem normalizeFailures_ok (source : String) :
    ∀ (l : List RawProvarRecord),
      (∀ f ∈ l, f.name ≠ some "__NO_FAILURES__" →
        f.name.isSome ∧ f.error.isSome ∧ f.details.isSome) →
      ∃ out, normalizeFailures source l = Except.ok out
  | [] => fun _ => ⟨[], rfl⟩
  | f :: rest => fun hl => by
    rcases normalizeFailures_ok source rest
        (fun g hg => hl g (List.mem_cons_of_mem f hg)) with ⟨out, hout⟩
    by_cases hname : f.name = some "__NO_FAILURES__"
    · exact ⟨out, by
        simp only [normalizeFailures, normalizeRecord, if_pos hname]
        exact hout⟩
    · have hf := hl f (List.mem_cons_self f rest) hname
      rcases Option.isSome_iff_exists.mp hf.1 with ⟨n, hn⟩
      rcases Option.isSome_iff_exists.mp hf.2.1 with ⟨e, he⟩
      rcases Option.isSome_iff_exists.mp hf.2.2 with ⟨d, hd⟩
      exact ⟨_, by
        simp only [normalizeFailures, normalizeRecord, hn, he, hd, hout]
        rw [if_neg (show ¬(some n = some "__NO_FAILURES__") from hn ▸ hname)]⟩

/-- CLAIM C9, counterexample. The normalization loop reads the error key by
direct indexing: a record with a name but no error key makes the Normalizer
raise a KeyError instead of defaulting the field to the empty string. -/
theorem C9_normalizer_counterexample :
    normalizeFailures "report.xml"
      [{ name := some "Tc1", testcase_path := none, error := none,
         details := some "d", webBrowserType := none,
         projectCachePath := none }] =
      Except.error (PyError.keyError "error") := by
  rfl

/-- CLAIM C9, amended. The Normalizer never raises on lists whose non-sentinel
records all carry the name, error and details keys, and it defaults the
remaining keys (testcase_path to empty, webBrowserType to Unknown,
projectCachePath to empty); but a non-sentinel record missing name, error or
details raises a KeyError instead of being defaulted, shown here for a
missing error key. -/
theorem C9_normalizer :
    (∀ (source : String) (l : List RawProvarRecord),
       (∀ f ∈ l, f.name ≠ some "__NO_FAILURES__" →
         f.name.isSome ∧ f.error.isSome ∧ f.details.isSome) →
       ∃ out, normalizeFailures source l = Except.ok out) ∧
    (∀ (source n e d : String), n ≠ "__NO_FAILURES__" →
       normalizeRecord source
         { name := some n, testcase_path := none, error := some e,
           details := some d, webBrowserType := none, projectCachePath := none } =
         Except.ok (some
           { testcase := n, testcase_path := "", error := e, details := d,
             source := source, webBrowserType := "Unknown",
             projectCachePath := "" })) ∧
    (∀ (source : String) (f : RawProvarRecord) (rest : List RawProvarRecord),
       f.name ≠ some "__NO_FAILURES__" → f.name.isSome → f.error = none →
       normalizeFailures source (f :: rest) =
         Except.error (PyError.keyError "error")) := by
  refine ⟨normalizeFailures_ok, ?_, ?_⟩
  · intro source n e d hn
    have hne : ¬(some n = some "__NO_FAILURES__") := by simpa using hn
    simp only [normalizeRecord]
    rw [if_neg hne]
    rfl
  · intro source f rest hname hsome herr
    rcases Option.isSome_iff_exists.mp hsome with ⟨n, hn⟩
    have hne : ¬(some n = some "__NO_FAILURES__") := hn ▸ hname
    simp only [normalizeFailures, normalizeRecord, hn, herr]
    rw [if_neg hne]

/-- Witness for the amended C9: a complete record with empty metadata keys
normalizes to the defaulted record. -/
theorem C9_normalizer_witness :
    normalizeRecord "f.xml"
      { name := some "Tc1", testcase_path := none, error := some "E",
        details := some "D", webBrowserType := none, projectCachePath := none } =
      Except.ok (some
        { testcase := "Tc1", testcase_path := "", error := "E", details := "D",
          source := "f.xml", webBrowserType := "Unknown",
          projectCachePath := "" }) :=
  C9_normalizer.2.1 "f.xml" "Tc1" "E" "D" (by decide)

/-- The cleanup loop equals dropping flagged records and projecting the rest. -/
theorem cleanFailuresLoop_eq_filter_map (l : List ApiRecord) :
    cleanFailuresLoop l = (l.filter (fun f => !f.no_failures)).map cleanOf := by
  induction l with
  | nil => rfl
  | cons f rest ih =>
    by_cases h : f.no_failures <;>
      simp [cleanFailuresLoop, List.filter_cons, h, ih]

/-- CLAIM C10. An authorized AutomationAPI save persists exactly the
projection of the non-sentinel input records onto the five saved fields: the
store is overwritten with the cleaned list, the cleaned list is the flagged
records dropped and the rest projected, and a subsequent load returns exactly
that list of five-field records. -/
theorem C10_api_save_projection :
    ∀ (adminEnv : Option String) (exp project : String) (failures : List ApiRecord)
      (st : Store ApiCleanRecord),
      adminEnv = some exp → exp ≠ "" →
      ((api_save_baseline adminEnv project failures exp st =
          Except.ok (storeWrite st project
            (StoreFile.jsonList (cleanFailuresLoop failures)))) ∧
       cleanFailuresLoop failures =
         (failures.filter (fun f => !f.no_failures)).map cleanOf ∧
       (∀ st', api_save_baseline adminEnv project failures exp st = Except.ok st' →
          api_load_baseline st' project =
            (failures.filter (fun f => !f.no_failures)).map cleanOf)) := by
  intro adminEnv exp project failures st henv hexp
  have hsave : api_save_baseline adminEnv project failures exp st =
      Except.ok (storeWrite st project
        (StoreFile.jsonList (cleanFailuresLoop failures))) := by
    simp only [api_save_baseline, henv]
    rw [if_neg (by simp [hexp]), if_neg (by simp)]
  refine ⟨hsave, cleanFailuresLoop_eq_filter_map failures, ?_⟩
  intro st' hst'
  rw [hsave] at hst'
  simp only [Except.ok.injEq] at hst'
  subst hst'
  simp [api_load_baseline, load_baseline, storeWrite,
    cleanFailuresLoop_eq_filter_map]

/-- Witness for C10: saving one genuine failure and one sentinel record, the
loaded baseline holds exactly the five-field projection of the genuine one. -/
theorem C10_api_save_projection_witness :
    api_load_baseline
      (storeWrite emptyStore "P"
        (StoreFile.jsonList (cleanFailuresLoop
          [apiRec "S" "T" "E" false, apiRec "" "" "" true]))) "P" =
      (([apiRec "S" "T" "E" false, apiRec "" "" "" true].filter
          (fun f => !f.no_failures)).map cleanOf) :=
  (C10_api_save_projection (some "k") "k" "P"
      [apiRec "S" "T" "E" false, apiRec "" "" "" true] emptyStore rfl
      (by decide)).2.2
    (storeWrite emptyStore "P"
      (StoreFile.jsonList (cleanFailuresLoop
        [apiRec "S" "T" "E" false, apiRec "" "" "" true])))
    rfl

end AiAgent
